import Mathlib

/-!
Verification of the mock LLM completion server
(`scripts/mock-llm-server.py`).

The development shallowly embeds the request handler `MockLLMHandler.do_POST`
and its helper `generate_mock_response`.  Environment interactions are
explicit parameters:

* the two `int(time.time())` readings (lines 62 and 64 of the source) are the
  parameters `t1` and `t2`;
* the broken-down local time consumed by `time.strftime` (line 139) is the
  parameter `tm : Tm`;
* the outcome of `post_data.decode("utf-8")` followed by `json.loads` on
  the bytes read from the socket is the parameter `body : BodyParse`:
  success, a `json.JSONDecodeError`, or a `UnicodeDecodeError` raised by the
  decode of non-UTF-8 bytes (which is not a `JSONDecodeError` and therefore
  falls to the generic handler);
* the `Content-Length` header is `contentLength : Option Nat` (`none` models
  a missing header, for which `int(self.headers[..])` raises before the
  `try` block);
* the `urlparse` call of line 25 is modelled by `urlparsePathE`, including
  urlsplit's C0-control/space left strip, tab/CR/LF removal, scheme and
  netloc splitting, and the query/fragment/params cuts.  Targets whose
  netloc contains a bracket or a non-ASCII character — the region where
  `urlparse` itself may raise `ValueError` (invalid bracketed hosts,
  netloc normalization checks), still before the `try` block — are
  conservatively routed to a parse-failure branch; no claim theorem
  quantifies into that branch.

Python floats only occur as `word_count * 1.3`; every such value is an exact
multiple of 1/10, so the embedding carries it as an integer count of tenths
(`13 * wordCount _`), and `int()` truncation of these non-negative values is
Nat division by 10.  Python's `str.lower`/`str.split` are modelled on their
ASCII behaviour, which covers every keyword the handler tests.
-/

/-- Values produced by `json.loads`: the JSON data model as Python sees it
(numbers restricted to integers, which is all the handler's logic can
distinguish). -/
inductive Json where
  | null
  | bool (b : Bool)
  | num (n : Int)
  | str (s : String)
  | arr (elems : List Json)
  | obj (fields : List (String × Json))

mutual

/-- Python `str()` of a decoded JSON value: a `str` maps to itself, other
values to their `repr` text (string escaping inside `repr` is not modelled;
no claim exercises it). -/
def pyStr : Json → String
  | Json.str s => s
  | v => pyRepr v

/-- Python `repr()` of a decoded JSON value. -/
def pyRepr : Json → String
  | Json.null => "None"
  | Json.bool b => if b then "True" else "False"
  | Json.num n => toString n
  | Json.str s => "\x27" ++ s ++ "\x27"
  | Json.arr xs => "[" ++ pyReprArr xs ++ "]"
  | Json.obj fs => "\x7b" ++ pyReprObj fs ++ "\x7d"

/-- Comma-separated `repr` of list elements. -/
def pyReprArr : List Json → String
  | [] => ""
  | [x] => pyRepr x
  | x :: y :: xs => pyRepr x ++ ", " ++ pyReprArr (y :: xs)

/-- Comma-separated `repr` of dict items. -/
def pyReprObj : List (String × Json) → String
  | [] => ""
  | [(k, v)] => "\x27" ++ k ++ "\x27: " ++ pyRepr v
  | (k, v) :: y :: xs => "\x27" ++ k ++ "\x27: " ++ pyRepr v ++ ", " ++ pyReprObj (y :: xs)

end

/-- Python `dict.get k` (first binding; `json.loads` never produces duplicate
keys in its output dicts). -/
def dictGet (fs : List (String × Json)) (k : String) : Option Json :=
  (fs.find? (fun kv => kv.fst == k)).map Prod.snd

/-- Python `dict.get k d`. -/
def dictGetD (fs : List (String × Json)) (k : String) (d : Json) : Json :=
  (dictGet fs k).getD d

/-- ASCII lowering, the behaviour of Python `str.lower` on the ASCII range
(all keywords tested by the handler are ASCII). -/
def pyLower (s : String) : String := String.mk (s.toList.map Char.toLower)

/-- Substring test on character lists (Python `needle in hay`). -/
def containsSub (hay needle : List Char) : Bool :=
  needle.isPrefixOf hay ||
    match hay with
    | [] => false
    | _ :: t => containsSub t needle

/-- Python `needle in hay` on strings. -/
def strContains (hay needle : String) : Bool := containsSub hay.toList needle.toList

/-- Whitespace recognised by Python `str.split()` (ASCII range). -/
def isPySpace (c : Char) : Bool :=
  c = ' ' || c = '\t' || c = '\n' || c = '\r' || c = '\x0b' || c = '\x0c'

/-- Number of maximal non-whitespace runs; the Boolean records whether the
scan is currently inside a run. -/
def wordCountAux : List Char → Bool → Nat
  | [], _ => 0
  | c :: cs, inWord =>
    if isPySpace c then wordCountAux cs false
    else (if inWord then 0 else 1) + wordCountAux cs true

/-- Python `len(s.split())`: the number of whitespace-delimited words. -/
def wordCount (s : String) : Nat := wordCountAux s.toList false

/-- Python `s[:n]` (slicing counts code points, as does `List.take` on
`toList`). -/
def strTake (s : String) (n : Nat) : String := String.mk (s.toList.take n)

/-- Characters of a request target up to the first `?` or `#`, where
`urlparse` ends the path-plus-params section. -/
def takeUntilQF : List Char → List Char
  | [] => []
  | c :: cs => if c = '?' || c = '#' then [] else c :: takeUntilQF cs

/-- Drop everything from the first `;` (used on the final path segment,
where `urlparse` separates `params` from `path`). -/
def cutSemi : List Char → List Char
  | [] => []
  | c :: cs => if c = ';' then [] else c :: cutSemi cs

/-- Remove the `;params` suffix of the final `/`-segment, as `urlparse`
does. -/
def dropParamsSeg (cs : List Char) : List Char :=
  let r := cs.reverse
  let seg := r.takeWhile (fun c => c ≠ '/')
  let pre := r.drop seg.length
  pre.reverse ++ cutSemi seg.reverse

/-- The pre-parse cleanup `urlsplit` applies: left strip of C0 controls and
space, then removal of every tab, CR and LF. -/
def urlPreClean (cs : List Char) : List Char :=
  (cs.dropWhile (fun c => c.toNat ≤ 32)).filter
    (fun c => c ≠ '\t' && c ≠ '\r' && c ≠ '\n')

/-- The characters `urlsplit` accepts inside a scheme
(letters, digits, `+`, `-`, `.`). -/
def schemeChar (c : Char) : Bool := c.isAlphanum || c = '+' || c = '-' || c = '.'

/-- Split at the first `:`, when there is one. -/
def splitColon : List Char → Option (List Char × List Char)
  | [] => none
  | ':' :: rest => some ([], rest)
  | c :: rest => (splitColon rest).map (fun pr => (c :: pr.1, pr.2))

/-- Drop a leading `scheme:` exactly when `urlsplit` does: a first `:` at a
positive position, the first character an ASCII letter, and every character
before the `:` a scheme character. -/
def dropScheme (cs : List Char) : List Char :=
  match splitColon cs with
  | some (pre, rest) =>
    match pre with
    | [] => cs
    | c0 :: _ => if c0.isAlpha && pre.all schemeChar then rest else cs
  | none => cs

/-- The `_splitnetloc` helper: the netloc runs to the earliest of `/`, `?`
or `#`; the rest keeps the delimiter. -/
def splitNetloc : List Char → List Char × List Char
  | [] => ([], [])
  | c :: cs =>
    if c = '/' || c = '?' || c = '#' then ([], c :: cs)
    else
      let pr := splitNetloc cs
      (c :: pr.1, pr.2)

/-- The netlocs this embedding models exactly: no brackets and ASCII only.
Outside this set `urlparse` may raise `ValueError` (unbalanced or invalid
bracketed hosts — though a valid IPv6 literal would be accepted — and
non-ASCII normalization checks), so `urlparsePathE` conservatively treats
every such netloc as the parse-failure branch. -/
def netlocOk (nl : List Char) : Bool :=
  nl.all (fun c => c ≠ '[' && c ≠ ']' && c.toNat ≤ 127)

/-- The `.path` component of `urlparse(self.path)` at source line 25:
cleanup, scheme removal, netloc removal (for `//`-prefixed targets), then
the cut at the first `?` or `#` and the `;params` cut on the final segment.
`Except.error` is the conservative parse-failure branch for netlocs outside
`netlocOk`, where the real `urlparse` may raise `ValueError`. -/
def urlparsePathE (target : String) : Except String String :=
  let cs := dropScheme (urlPreClean target.toList)
  match cs with
  | '/' :: '/' :: rest =>
    let pr := splitNetloc rest
    if netlocOk pr.1 then Except.ok (String.mk (dropParamsSeg (takeUntilQF pr.2)))
    else Except.error "ValueError: netloc outside the modelled fragment"
  | _ => Except.ok (String.mk (dropParamsSeg (takeUntilQF cs)))

/-- Broken-down local time, the input of `time.strftime`. -/
structure Tm where
  year : Nat
  month : Nat
  day : Nat
  hour : Nat
  minute : Nat
  second : Nat

/-- Zero-pad to two digits (strftime `%m`, `%d`, `%H`, `%M`, `%S`). -/
def pad2 (n : Nat) : String := if n < 10 then "0" ++ toString n else toString n

/-- Zero-pad to four digits (strftime `%Y`). -/
def pad4 (n : Nat) : String :=
  if n < 10 then "000" ++ toString n
  else if n < 100 then "00" ++ toString n
  else if n < 1000 then "0" ++ toString n
  else toString n

/-- Python `time.strftime("%Y-%m-%d %H:%M:%S")` applied to `t`. -/
def strftimeYmdHms (t : Tm) : String :=
  pad4 t.year ++ "-" ++ pad2 t.month ++ "-" ++ pad2 t.day ++ " " ++
    pad2 t.hour ++ ":" ++ pad2 t.minute ++ ":" ++ pad2 t.second

/-- Reply of rule 1 (source line 104). -/
def greetingReply : String :=
  "Hello! I\x27m a mock AI assistant running in the Crowd Models test environment. How can I help you today?"

/-- Reply of rule 2 (source line 107), interpolating the model name. -/
def nameReply (model : String) : String :=
  "I\x27m a mock version of " ++ model ++
    ", running on the Crowd Models decentralized network for testing purposes."

/-- Reply of rule 3 (source lines 110-121). -/
def codeReply : String :=
  "Here\x27s a simple Python example:\n\n```python\ndef hello_world():\n    print(\"Hello from the Crowd Models network!\")\n    return \"Success\"\n\n# This is a mock response for testing\nhello_world()\n```\n\nThis is a mock code response generated for testing the Crowd Models P2P network."

/-- Reply of rule 4 (source line 124). -/
def mathReply : String :=
  "I can help with math! For example: 2 + 2 = 4, and the square root of 16 is 4. This is a mock mathematical response for testing purposes."

/-- Reply of rule 5 (source lines 127-131); the first paragraph ends with a
trailing space, as in the source. -/
def storyReply : String :=
  "Once upon a time, in a decentralized network far, far away, there lived a mock AI assistant. This assistant helped test the Crowd Models P2P network by providing consistent responses to various prompts. \n\nThe assistant was happy to serve researchers and developers who were building the future of distributed AI systems. And they all lived efficiently ever after.\n\n*This is a mock story response for testing.*"

/-- Fallback text before the echoed prompt (source line 134-136, up to the
opening quote). -/
def fallbackPre : String :=
  "This is a mock response generated by the test LLM server for the Crowd Models network.\n\nYour prompt was: \""

/-- Fallback text between the echoed prompt and the model name. -/
def fallbackMid : String := "\"\n\nModel: "

/-- Fallback text after the timestamp (source lines 139-141). -/
def fallbackPost : String :=
  "\n\nThis response is generated for testing purposes and demonstrates that the P2P network is functioning correctly."

/-- Fallback reply (source lines 134-141): echo of the first 100 characters
of the prompt, an ellipsis exactly when the prompt is longer than 100
characters, the model name, and the strftime timestamp. -/
def fallbackReply (prompt model : String) (tm : Tm) : String :=
  fallbackPre ++ strTake prompt 100 ++
    (if prompt.length > 100 then "..." else "") ++
    fallbackMid ++ model ++ "\nTime: " ++ strftimeYmdHms tm ++ fallbackPost

/-- The keyword dispatch of `generate_mock_response` (source lines 97-141).
`model` is the already-`str()`-ed model value, `tm` the strftime reading
used only by the fallback branch. -/
def generate_mock_response (prompt model : String) (tm : Tm) : String :=
  let prompt_lower := pyLower prompt
  if strContains prompt_lower "hello" || strContains prompt_lower "hi" then
    greetingReply
  else if strContains prompt_lower "what" && strContains prompt_lower "name" then
    nameReply model
  else if strContains prompt_lower "code" || strContains prompt_lower "python" then
    codeReply
  else if strContains prompt_lower "math" || strContains prompt_lower "calculate" then
    mathReply
  else if strContains prompt_lower "story" || strContains prompt_lower "tale" then
    storyReply
  else
    fallbackReply prompt model tm

/-- Python `msg.get("role") == "user"` (source line 49); `None` or a
non-string value compares unequal to `"user"`. -/
def isUserRole (fs : List (String × Json)) : Bool :=
  match dictGet fs "role" with
  | some (Json.str s) => s == "user"
  | _ => false

/-- Python `len()` of a decoded JSON value, as used on the `messages` value
at source line 38; numbers, booleans and `None` raise `TypeError`. -/
def pyLen : Json → Except String Nat
  | Json.str s => Except.ok s.length
  | Json.arr xs => Except.ok xs.length
  | Json.obj fs => Except.ok fs.length
  | _ => Except.error "TypeError: object has no len()"

/-- Python iteration over the `messages` value (source line 48): lists yield
their elements, strings their one-character substrings, dicts their keys;
other values raise `TypeError` (already raised at `len()` on line 38). -/
def iterElems : Json → Except String (List Json)
  | Json.arr xs => Except.ok xs
  | Json.str s => Except.ok (s.toList.map (fun c => Json.str (String.mk [c])))
  | Json.obj fs => Except.ok (fs.map (fun kv => Json.str kv.fst))
  | _ => Except.error "TypeError: object is not iterable"

/-- The prompt-concatenation loop (source lines 47-50): `prompt_text`
accumulates the `content` of every `user`-role message; a non-dict element
raises `AttributeError` at `msg.get`, a non-string `content` of a user
message raises `TypeError` at `+=`. -/
def extractPrompt : List Json → Except String String
  | [] => Except.ok ""
  | Json.obj fs :: ms =>
    if isUserRole fs then
      match dictGet fs "content" with
      | none => extractPrompt ms
      | some (Json.str s) => Except.map (fun r => s ++ r) (extractPrompt ms)
      | some _ => Except.error "TypeError: can only concatenate str to str"
    else extractPrompt ms
  | _ :: _ => Except.error "AttributeError: object has no attribute get"

/-- The `usage` object of a response. -/
structure Usage where
  prompt_tokens : Nat
  completion_tokens : Nat
  total_tokens : Nat

/-- The message inside a response choice. -/
structure Message where
  role : String
  content : String

/-- One element of the `choices` array. -/
structure Choice where
  index : Nat
  message : Message
  finish_reason : String

/-- The JSON response body built at source lines 61-81. -/
structure ChatResponse where
  id : String
  object : String
  created : Nat
  model : Json
  choices : List Choice
  usage : Usage

/-- The token estimates of source lines 56-58.  The Python floats
`len(text.split()) * 1.3` are exact multiples of 1/10, carried here as
integer tenths; `int()` of such a non-negative value is division by 10.
`total_tokens` is `int(prompt_tokens + completion_tokens)`: the sum of the
two un-truncated tenths counts, truncated once. -/
def usageOf (p c : String) : Usage :=
  let pt10 := 13 * wordCount p
  let ct10 := 13 * wordCount c
  { prompt_tokens := pt10 / 10
    completion_tokens := ct10 / 10
    total_tokens := (pt10 + ct10) / 10 }

/-- The response dictionary of source lines 61-81; `t1` is the
`int(time.time())` of line 62 (inside `id`), `t2` the one of line 64
(`created`). -/
def buildResponse (p content : String) (model : Json) (t1 t2 : Nat) : ChatResponse :=
  { id := "chatcmpl-" ++ toString t1
    object := "chat.completion"
    created := t2
    model := model
    choices := [{ index := 0
                  message := { role := "assistant", content := content }
                  finish_reason := "stop" }]
    usage := usageOf p content }

/-- The body of the `try` block after a successful `json.loads` (source
lines 37-89): the two `logger.info` lines, parameter extraction with
defaults, prompt concatenation, reply generation and response construction.
Returns the emitted log lines together with either the response or the
message of the exception that escaped to the generic handler.  The
`max_tokens` and `temperature` extractions (lines 43-44) cannot raise and
are unused, so they are not represented. -/
def processRequest (j : Json) (t1 t2 : Nat) (tm : Tm) :
    List String × Except String ChatResponse :=
  match j with
  | Json.obj fs =>
    let l1 := "Received request for model: " ++ pyStr (dictGetD fs "model" (Json.str "unknown"))
    let msgsVal := dictGetD fs "messages" (Json.arr [])
    (match pyLen msgsVal with
     | Except.error e => ([l1], Except.error e)
     | Except.ok n =>
       let l2 := "Prompt length: " ++ toString n
       let model := dictGetD fs "model" (Json.str "gpt-3.5-turbo")
       match iterElems msgsVal with
       | Except.error e => ([l1, l2], Except.error e)
       | Except.ok msgs =>
         match extractPrompt msgs with
         | Except.error e => ([l1, l2], Except.error e)
         | Except.ok prompt =>
           let content := generate_mock_response prompt (pyStr model) tm
           let resp := buildResponse prompt content model t1 t2
           let l3 := "Sent mock response with " ++ toString resp.usage.total_tokens ++ " tokens"
           ([l1, l2, l3], Except.ok resp))
  | _ =>
    -- a non-dict top-level value raises AttributeError at
    -- request_data.get on the logging line 37, before any log is emitted
    ([], Except.error "AttributeError: object has no attribute get")

/-- What `do_POST` does with one request: a 200 response, a `send_error`
status, or an exception escaping the handler method. -/
inductive HttpResult where
  | ok (resp : ChatResponse)
  | sendError (code : Nat) (msg : String)
  | uncaught (msg : String)

/-- Exception message of `int(self.headers["Content-Length"])` when the
header is absent (the header object yields `None`). -/
def contentLengthErrMsg : String :=
  "TypeError: int() argument must not be NoneType"

/-- Observable outcome of one `do_POST` call: the HTTP-level result, whether
`self.rfile.read` was reached, and the log lines emitted. -/
structure HandlerOutcome where
  result : HttpResult
  bodyRead : Bool
  logs : List String

/-- Outcome of `post_data.decode("utf-8")` followed by `json.loads` on the
bytes read at line 36: both steps succeed; the bytes decode but parsing
raises `json.JSONDecodeError` (caught at line 91); or the bytes are not
valid UTF-8 and the decode raises `UnicodeDecodeError` with message `e`,
which is not a `JSONDecodeError` and falls to the generic handler at
line 93. -/
inductive BodyParse where
  | ok (j : Json)
  | jsonError
  | decodeError (e : String)

/-- The handler `do_POST` (source lines 21-95).  `target` is the raw request
target (`self.path`); `contentLength` the `Content-Length` header; `body`
the decode-and-parse outcome of the bytes read; `t1`, `t2`, `tm` the clock
readings. -/
def do_POST (target : String) (contentLength : Option Nat) (body : BodyParse)
    (t1 t2 : Nat) (tm : Tm) : HandlerOutcome :=
  match urlparsePathE target with
  | Except.error e =>
    -- urlparse raises at line 25, outside the try block: the exception
    -- escapes the handler (conservative branch, see urlparsePathE)
    { result := HttpResult.uncaught e, bodyRead := false, logs := [] }
  | Except.ok path =>
    if path ≠ "/chat/completions" then
      { result := HttpResult.sendError 404 "Not Found", bodyRead := false, logs := [] }
    else
      match contentLength with
      | none =>
        -- int(self.headers["Content-Length"]) raises outside the try block
        { result := HttpResult.uncaught contentLengthErrMsg, bodyRead := false, logs := [] }
      | some _ =>
        match body with
        | BodyParse.decodeError e =>
          -- UnicodeDecodeError at line 36, caught by the generic handler
          { result := HttpResult.sendError 500 "Internal Server Error"
            bodyRead := true
            logs := ["Error processing request: " ++ e] }
        | BodyParse.jsonError =>
          { result := HttpResult.sendError 400 "Invalid JSON", bodyRead := true, logs := [] }
        | BodyParse.ok j =>
          match processRequest j t1 t2 tm with
          | (logs, Except.ok resp) =>
            { result := HttpResult.ok resp, bodyRead := true, logs := logs }
          | (logs, Except.error e) =>
            { result := HttpResult.sendError 500 "Internal Server Error"
              bodyRead := true
              logs := logs ++ ["Error processing request: " ++ e] }

/-! Spec-side vocabulary.  The following definitions phrase the behaviour
the way the specification does — an ordered, data-driven rule table with
first-match-wins, and total accessor functions over the request JSON — so
that the claim theorems can compare the handler against them. -/

/-- The five keyword rules of the reply-selection algorithm, in spec
order; the fallback is the absence of a match. -/
inductive Rule where
  | greeting
  | name
  | code
  | math
  | story

/-- The keyword predicate of each rule, over the lowered prompt text. -/
def ruleMatches (r : Rule) (t : String) : Bool :=
  match r with
  | Rule.greeting => strContains t "hello" || strContains t "hi"
  | Rule.name => strContains t "what" && strContains t "name"
  | Rule.code => strContains t "code" || strContains t "python"
  | Rule.math => strContains t "math" || strContains t "calculate"
  | Rule.story => strContains t "story" || strContains t "tale"

/-- The rules in the order the spec lists them. -/
def ruleOrder : List Rule := [Rule.greeting, Rule.name, Rule.code, Rule.math, Rule.story]

/-- First match in an ordered rule table. -/
def firstMatchAux : List Rule → String → Option Rule
  | [], _ => none
  | r :: rs, t => if ruleMatches r t then some r else firstMatchAux rs t

/-- First-match-wins over the ordered rule table; `none` selects the
fallback. -/
def firstMatchingRule (t : String) : Option Rule :=
  firstMatchAux ruleOrder t

/-- The reply each rule (or the fallback) produces. -/
def replyOfRule : Option Rule → String → String → Tm → String
  | some Rule.greeting, _, _, _ => greetingReply
  | some Rule.name, _, model, _ => nameReply model
  | some Rule.code, _, _, _ => codeReply
  | some Rule.math, _, _, _ => mathReply
  | some Rule.story, _, _, _ => storyReply
  | none, prompt, model, tm => fallbackReply prompt model tm

/-- The contribution of one message to the prompt text: its `content` when
it is a dict whose `role` is `"user"` (with `""` for an absent or non-string
content), nothing otherwise. -/
def userContentOf (m : Json) : String :=
  match m with
  | Json.obj fs =>
    if isUserRole fs then
      match dictGet fs "content" with
      | some (Json.str s) => s
      | _ => ""
    else ""
  | _ => ""

/-- Concatenation of all user-role message contents, in message order. -/
def concatUser : List Json → String
  | [] => ""
  | m :: ms => userContentOf m ++ concatUser ms

/-- Total lookup of a key in a request object, with a default for an absent
key or a non-dict request. -/
def jsonGetD (j : Json) (k : String) (d : Json) : Json :=
  match j with
  | Json.obj fs => dictGetD fs k d
  | _ => d

/-- The `model` value a valid request carries (default
`"gpt-3.5-turbo"`). -/
def modelOf (j : Json) : Json := jsonGetD j "model" (Json.str "gpt-3.5-turbo")

/-- The message list of a request, as the iteration at source line 48 sees
it (default `[]`; non-iterable values, which never reach the loop, give
`[]`). -/
def msgsOfD (j : Json) : List Json :=
  match j with
  | Json.obj fs =>
    match iterElems (dictGetD fs "messages" (Json.arr [])) with
    | Except.ok ms => ms
    | Except.error _ => []
  | _ => []

/-- The prompt text of a request: the concatenated user-role contents. -/
def promptOf (j : Json) : String := concatUser (msgsOfD j)

/-- The reply text a request produces, phrased through the spec-side
accessors. -/
def mockReplyOf (j : Json) (tm : Tm) : String :=
  generate_mock_response (promptOf j) (pyStr (modelOf j)) tm

/-- Whether processing succeeded. -/
def exceptIsOk : Except String ChatResponse → Bool
  | Except.ok _ => true
  | Except.error _ => false

/-- The reply text of a response (`choices[0].message.content`). -/
def ChatResponse.content (r : ChatResponse) : String :=
  match r.choices with
  | c :: _ => c.message.content
  | [] => ""

/-- A successful `exceptIsOk` exposes the response. -/
theorem exceptIsOk_ok (r : Except String ChatResponse) (h : exceptIsOk r = true) :
    ∃ out, r = Except.ok out := by
  cases r with
  | ok out => exact ⟨out, rfl⟩
  | error e => simp [exceptIsOk] at h

/-- Netloc handling sanity check: a protocol-relative target keeps only its
path component, as `urlparse` does. -/
theorem urlparse_netloc_example :
    urlparsePathE "//x/chat/completions" = Except.ok "/chat/completions" := rfl

/-- A successful run of the prompt-concatenation loop returns exactly the
concatenation of the user-role message contents, in message order. -/
theorem extract_ok_eq (ms : List Json) : ∀ p, extractPrompt ms = Except.ok p → p = concatUser ms := by
  induction ms with
  | nil =>
    intro p h
    exact (Except.ok.inj h).symm
  | cons m ms ih =>
    intro p h
    cases m with
    | null => exact Except.noConfusion h
    | bool b => exact Except.noConfusion h
    | num n => exact Except.noConfusion h
    | str s => exact Except.noConfusion h
    | arr xs => exact Except.noConfusion h
    | obj fs =>
      unfold extractPrompt at h
      by_cases hr : isUserRole fs = true
      · rw [if_pos hr] at h
        cases hc : dictGet fs "content" with
        | none =>
          rw [hc] at h
          have hrec := ih p h
          simp [concatUser, userContentOf, hr, hc, hrec]
        | some v =>
          rw [hc] at h
          cases v with
          | str s =>
            cases he : extractPrompt ms with
            | ok q =>
              rw [he] at h
              have hq := ih q he
              have hps : s ++ q = p := Except.ok.inj h
              simp [concatUser, userContentOf, hr, hc, ← hps, hq]
            | error e => rw [he] at h; exact Except.noConfusion h
          | null => exact Except.noConfusion h
          | bool b => exact Except.noConfusion h
          | num n => exact Except.noConfusion h
          | arr xs => exact Except.noConfusion h
          | obj gs => exact Except.noConfusion h
      · rw [if_neg hr] at h
        have hrec := ih p h
        simp [concatUser, userContentOf, hr, hrec]

/-- A successful `processRequest` run produces exactly the response built
from the spec-side accessors of the request. -/
theorem processRequest_ok (j : Json) (t1 t2 : Nat) (tm : Tm) (out : ChatResponse)
    (h : (processRequest j t1 t2 tm).2 = Except.ok out) :
    out = buildResponse (promptOf j)
      (generate_mock_response (promptOf j) (pyStr (modelOf j)) tm) (modelOf j) t1 t2 := by
  cases j with
  | null => exact Except.noConfusion h
  | bool b => exact Except.noConfusion h
  | num n => exact Except.noConfusion h
  | str s => exact Except.noConfusion h
  | arr xs => exact Except.noConfusion h
  | obj fs =>
    simp only [processRequest] at h
    split at h
    next e hl => simp at h
    next n hl =>
      split at h
      next e hi => simp at h
      next msgs hi =>
        split at h
        next e hx => simp at h
        next prompt hx =>
          simp only at h
          have hout : buildResponse prompt
              (generate_mock_response prompt (pyStr (dictGetD fs "model" (Json.str "gpt-3.5-turbo"))) tm)
              (dictGetD fs "model" (Json.str "gpt-3.5-turbo")) t1 t2 = out := Except.ok.inj h
          have hp : prompt = concatUser msgs := extract_ok_eq msgs prompt hx
          have hpj : promptOf (Json.obj fs) = concatUser msgs := by
            simp [promptOf, msgsOfD, hi]
          have hmj : modelOf (Json.obj fs) = dictGetD fs "model" (Json.str "gpt-3.5-turbo") := rfl
          rw [← hout, hpj, ← hp, hmj]

/-- The nested `if`-chain of `generate_mock_response` is exactly
first-match-wins over the ordered rule table. -/
theorem gmr_eq_rules (p m : String) (tm : Tm) :
    generate_mock_response p m tm
      = replyOfRule (firstMatchingRule (pyLower p)) p m tm := by
  by_cases h1 : (strContains (pyLower p) "hello" || strContains (pyLower p) "hi") = true <;>
    by_cases h2 : (strContains (pyLower p) "what" && strContains (pyLower p) "name") = true <;>
    by_cases h3 : (strContains (pyLower p) "code" || strContains (pyLower p) "python") = true <;>
    by_cases h4 : (strContains (pyLower p) "math" || strContains (pyLower p) "calculate") = true <;>
    by_cases h5 : (strContains (pyLower p) "story" || strContains (pyLower p) "tale") = true <;>
    simp [generate_mock_response, firstMatchingRule, ruleOrder, firstMatchAux, ruleMatches,
      replyOfRule, h1, h2, h3, h4, h5]

/-- Any prompt containing `"hello"` selects rule 1, whatever else it
contains. -/
theorem firstMatch_greeting (t : String) (h : strContains t "hello" = true) :
    firstMatchingRule t = some Rule.greeting := by
  simp [firstMatchingRule, ruleOrder, firstMatchAux, ruleMatches, h]

/-- When no rule matches, all five keyword predicates are false. -/
theorem firstMatch_none (t : String) (h : firstMatchingRule t = none) :
    ruleMatches Rule.greeting t = false ∧ ruleMatches Rule.name t = false ∧
      ruleMatches Rule.code t = false ∧ ruleMatches Rule.math t = false ∧
      ruleMatches Rule.story t = false := by
  simp only [firstMatchingRule, ruleOrder, firstMatchAux] at h
  by_cases h1 : ruleMatches Rule.greeting t = true
  · simp [h1] at h
  · by_cases h2 : ruleMatches Rule.name t = true
    · simp [h1, h2] at h
    · by_cases h3 : ruleMatches Rule.code t = true
      · simp [h1, h2, h3] at h
      · by_cases h4 : ruleMatches Rule.math t = true
        · simp [h1, h2, h3, h4] at h
        · by_cases h5 : ruleMatches Rule.story t = true
          · simp [h1, h2, h3, h4, h5] at h
          · simp only [Bool.not_eq_true] at h1 h2 h3 h4 h5
            exact ⟨h1, h2, h3, h4, h5⟩

/-- Truncating `13 * a` tenths is the floor of `a * 1.3`. -/
theorem floor_tenths (a : Nat) : ((13 * a / 10 : Nat) : Int) = ⌊(a : ℚ) * 1.3⌋ := by
  have h13 : (1.3 : ℚ) = 13 / 10 := by norm_num
  have harg : (a : ℚ) * 1.3 = ((13 * a : Nat) : ℚ) / ((10 : Nat) : ℚ) := by
    rw [h13]; push_cast; ring
  rw [harg, Rat.floor_natCast_div_natCast]
  exact Int.ofNat_ediv _ _

/-- Truncating the un-truncated sum `13 * a + 13 * b` tenths is the floor of
the pre-floor sum `a * 1.3 + b * 1.3`. -/
theorem floor_tenths_add (a b : Nat) :
    (((13 * a + 13 * b) / 10 : Nat) : Int) = ⌊(a : ℚ) * 1.3 + (b : ℚ) * 1.3⌋ := by
  have h13 : (1.3 : ℚ) = 13 / 10 := by norm_num
  have harg : (a : ℚ) * 1.3 + (b : ℚ) * 1.3
      = ((13 * a + 13 * b : Nat) : ℚ) / ((10 : Nat) : ℚ) := by
    rw [h13]; push_cast; ring
  rw [harg, Rat.floor_natCast_div_natCast]
  exact Int.ofNat_ediv _ _

/-- The reply text carried by a built response. -/
theorem buildResponse_content (p c : String) (m : Json) (a b : Nat) :
    ChatResponse.content (buildResponse p c m a b) = c := rfl

/-- The usage object carried by a built response. -/
theorem buildResponse_usage (p c : String) (m : Json) (a b : Nat) :
    (buildResponse p c m a b).usage = usageOf p c := rfl

/-- The model value carried by a built response. -/
theorem buildResponse_model (p c : String) (m : Json) (a b : Nat) :
    (buildResponse p c m a b).model = m := rfl

/-! Claim theorems and their witnesses. -/

/-- A fixed strftime reading used by the witnesses. -/
def tm0 : Tm := ⟨2024, 1, 2, 3, 4, 5⟩

/-- A request whose prompt contains both "hello" and "code". -/
def reqHelloCode : Json :=
  Json.obj [("model", Json.str "test-model"),
    ("messages", Json.arr [Json.obj [("role", Json.str "user"), ("content", Json.str "hello code")]])]

/-- A request whose prompt has three words. -/
def reqWords : Json :=
  Json.obj [("messages", Json.arr [Json.obj [("role", Json.str "user"),
    ("content", Json.str "one two three")]])]

/-- A request with an empty messages list. -/
def reqEmptyMsgs : Json := Json.obj [("messages", Json.arr [])]

/-- C1: for every request handled successfully, the reply text is selected
by case-insensitive substring matching against the concatenation of the
user-role message contents in message order, testing the six rules
(hello/hi; what AND name; code/python; math/calculate; story/tale;
fallback) top to bottom with the first match winning; in particular a
prompt containing both "hello" and "code" yields the greeting reply. -/
theorem c1_reply_selection (j : Json) (t1 t2 : Nat) (tm : Tm)
    (h : exceptIsOk (processRequest j t1 t2 tm).2 = true) :
    Except.map ChatResponse.content (processRequest j t1 t2 tm).2
      = Except.ok (replyOfRule (firstMatchingRule (pyLower (promptOf j)))
          (promptOf j) (pyStr (modelOf j)) tm)
    ∧ (strContains (pyLower (promptOf j)) "hello" = true →
        strContains (pyLower (promptOf j)) "code" = true →
        Except.map ChatResponse.content (processRequest j t1 t2 tm).2
          = Except.ok greetingReply) := by
  obtain ⟨out, ho⟩ := exceptIsOk_ok _ h
  have hb := processRequest_ok j t1 t2 tm out ho
  constructor
  · rw [ho, hb]
    simp only [Except.map, buildResponse_content, gmr_eq_rules]
  · intro hh hc
    rw [ho, hb]
    have hg : generate_mock_response (promptOf j) (pyStr (modelOf j)) tm = greetingReply := by
      simp [generate_mock_response, hh]
    simp only [Except.map, buildResponse_content, hg]

/-- Witness for C1: a request whose single user message is "hello code"
selects the greeting reply. -/
theorem c1_reply_selection_witness :
    exceptIsOk (processRequest reqHelloCode 0 0 tm0).2 = true
    ∧ (Except.map ChatResponse.content (processRequest reqHelloCode 0 0 tm0).2
        = Except.ok (replyOfRule (firstMatchingRule (pyLower (promptOf reqHelloCode)))
            (promptOf reqHelloCode) (pyStr (modelOf reqHelloCode)) tm0)
      ∧ (strContains (pyLower (promptOf reqHelloCode)) "hello" = true →
          strContains (pyLower (promptOf reqHelloCode)) "code" = true →
          Except.map ChatResponse.content (processRequest reqHelloCode 0 0 tm0).2
            = Except.ok greetingReply)) :=
  ⟨rfl, c1_reply_selection reqHelloCode 0 0 tm0 rfl⟩

/-- C2: for every request handled successfully, `prompt_tokens` is the floor
of `word_count(prompt) * 1.3`, `completion_tokens` is the floor of
`word_count(reply) * 1.3`, and `total_tokens` is the floor of the sum of
the two pre-floor products (the sum of the un-floored values, floored
once). -/
theorem c2_token_accounting (j : Json) (t1 t2 : Nat) (tm : Tm)
    (h : exceptIsOk (processRequest j t1 t2 tm).2 = true) :
    Except.map (fun r => ((r.usage.prompt_tokens : Int), (r.usage.completion_tokens : Int),
        (r.usage.total_tokens : Int))) (processRequest j t1 t2 tm).2
      = Except.ok
          (⌊(wordCount (promptOf j) : ℚ) * 1.3⌋,
           ⌊(wordCount (mockReplyOf j tm) : ℚ) * 1.3⌋,
           ⌊(wordCount (promptOf j) : ℚ) * 1.3 + (wordCount (mockReplyOf j tm) : ℚ) * 1.3⌋) := by
  obtain ⟨out, ho⟩ := exceptIsOk_ok _ h
  have hb := processRequest_ok j t1 t2 tm out ho
  rw [ho, hb]
  simp only [Except.map, buildResponse_usage, usageOf, mockReplyOf, Except.ok.injEq,
    Prod.mk.injEq]
  exact ⟨floor_tenths _, floor_tenths _, floor_tenths_add _ _⟩

/-- Witness for C2: a request with a three-word prompt. -/
theorem c2_token_accounting_witness :
    exceptIsOk (processRequest reqWords 0 0 tm0).2 = true
    ∧ Except.map (fun r => ((r.usage.prompt_tokens : Int), (r.usage.completion_tokens : Int),
        (r.usage.total_tokens : Int))) (processRequest reqWords 0 0 tm0).2
      = Except.ok
          (⌊(wordCount (promptOf reqWords) : ℚ) * 1.3⌋,
           ⌊(wordCount (mockReplyOf reqWords tm0) : ℚ) * 1.3⌋,
           ⌊(wordCount (promptOf reqWords) : ℚ) * 1.3
             + (wordCount (mockReplyOf reqWords tm0) : ℚ) * 1.3⌋) :=
  ⟨rfl, c2_token_accounting reqWords 0 0 tm0 rfl⟩

/-- C3: for every request handled successfully, the response echoes the
request's `model` field, defaulting to "gpt-3.5-turbo" when it is absent. -/
theorem c3_model_echo (j : Json) (t1 t2 : Nat) (tm : Tm)
    (h : exceptIsOk (processRequest j t1 t2 tm).2 = true) :
    Except.map (fun r => r.model) (processRequest j t1 t2 tm).2
      = Except.ok (jsonGetD j "model" (Json.str "gpt-3.5-turbo")) := by
  obtain ⟨out, ho⟩ := exceptIsOk_ok _ h
  have hb := processRequest_ok j t1 t2 tm out ho
  rw [ho, hb]
  simp only [Except.map, buildResponse_model]
  rfl

/-- Witness for C3: the request carrying model "test-model". -/
theorem c3_model_echo_witness :
    exceptIsOk (processRequest reqHelloCode 0 0 tm0).2 = true
    ∧ Except.map (fun r => r.model) (processRequest reqHelloCode 0 0 tm0).2
        = Except.ok (jsonGetD reqHelloCode "model" (Json.str "gpt-3.5-turbo")) :=
  ⟨rfl, c3_model_echo reqHelloCode 0 0 tm0 rfl⟩

/-- C4: when no keyword rule matches, the reply echoes the first 100
characters of the prompt, appends an ellipsis exactly when the prompt is
longer than 100 characters, and interpolates the model name and the
strftime wall-clock reading; an empty messages list gives an empty echoed
prompt with no ellipsis. -/
theorem c4_fallback (p model : String) (t1 t2 : Nat) (tm : Tm)
    (h : firstMatchingRule (pyLower p) = none) :
    generate_mock_response p model tm
      = fallbackPre ++ strTake p 100 ++ (if p.length > 100 then "..." else "")
          ++ fallbackMid ++ model ++ "\nTime: " ++ strftimeYmdHms tm ++ fallbackPost
    ∧ Except.map ChatResponse.content
        (processRequest reqEmptyMsgs t1 t2 tm).2
        = Except.ok (fallbackPre ++ "" ++ "" ++ fallbackMid ++ "gpt-3.5-turbo"
            ++ "\nTime: " ++ strftimeYmdHms tm ++ fallbackPost) := by
  constructor
  · rw [gmr_eq_rules, h]
    rfl
  · rfl

/-- Witness for C4: a prompt matching no keyword rule. -/
theorem c4_fallback_witness :
    firstMatchingRule (pyLower "Tell me about the weather") = none
    ∧ (generate_mock_response "Tell me about the weather" "m" tm0
        = fallbackPre ++ strTake "Tell me about the weather" 100
            ++ (if ("Tell me about the weather" : String).length > 100 then "..." else "")
            ++ fallbackMid ++ "m" ++ "\nTime: " ++ strftimeYmdHms tm0 ++ fallbackPost
      ∧ Except.map ChatResponse.content (processRequest reqEmptyMsgs 0 0 tm0).2
          = Except.ok (fallbackPre ++ "" ++ "" ++ fallbackMid ++ "gpt-3.5-turbo"
              ++ "\nTime: " ++ strftimeYmdHms tm0 ++ fallbackPost)) :=
  ⟨rfl, c4_fallback "Tell me about the weather" "m" 0 0 tm0 rfl⟩

/-- C5 counterexample: the handler reads the clock twice (source lines 62
and 64); with the clock advancing between the calls (readings 0 then 1) the
response has id "chatcmpl-0" but created 1, so the numeric suffix of `id`
differs from `created`, falsifying the claim as stated. -/
theorem c5_counterexample :
    Except.map (fun r => (r.id, r.created))
        (processRequest reqEmptyMsgs 0 1 tm0).2
      = Except.ok ("chatcmpl-0", 1)
    ∧ ("chatcmpl-0" : String) ≠ "chatcmpl-" ++ toString (1 : Nat) :=
  ⟨rfl, by decide⟩

/-- C5 (amended): `id` is "chatcmpl-" concatenated with the first clock
reading and `created` is the second clock reading, taken immediately after;
whenever the two readings coincide (the two calls fall in the same second),
the numeric suffix of `id` equals `created`. -/
theorem c5_id_created (j : Json) (t1 t2 : Nat) (tm : Tm)
    (h : exceptIsOk (processRequest j t1 t2 tm).2 = true) :
    Except.map (fun r => r.id) (processRequest j t1 t2 tm).2
        = Except.ok ("chatcmpl-" ++ toString t1)
    ∧ Except.map (fun r => r.created) (processRequest j t1 t2 tm).2 = Except.ok t2
    ∧ (t1 = t2 →
        Except.map (fun r => r.id == "chatcmpl-" ++ toString r.created)
            (processRequest j t1 t2 tm).2 = Except.ok true) := by
  obtain ⟨out, ho⟩ := exceptIsOk_ok _ h
  have hb := processRequest_ok j t1 t2 tm out ho
  refine ⟨by rw [ho, hb]; rfl, by rw [ho, hb]; rfl, ?_⟩
  intro hte
  subst hte
  rw [ho, hb]
  simp [Except.map, buildResponse]

/-- Witness for C5 (amended): both clock readings equal to 7. -/
theorem c5_id_created_witness :
    exceptIsOk (processRequest reqEmptyMsgs 7 7 tm0).2 = true
    ∧ (Except.map (fun r => r.id) (processRequest reqEmptyMsgs 7 7 tm0).2
          = Except.ok ("chatcmpl-" ++ toString (7 : Nat))
      ∧ Except.map (fun r => r.created) (processRequest reqEmptyMsgs 7 7 tm0).2
          = Except.ok 7
      ∧ ((7 : Nat) = 7 →
          Except.map (fun r => r.id == "chatcmpl-" ++ toString r.created)
              (processRequest reqEmptyMsgs 7 7 tm0).2 = Except.ok true)) :=
  ⟨rfl, c5_id_created reqEmptyMsgs 7 7 tm0 rfl⟩

/-- C8: every POST whose target parses to a path other than
/chat/completions is answered 404 Not Found before the body is read, for
every body and header content. -/
theorem c8_not_found (target p : String) (contentLength : Option Nat) (body : BodyParse)
    (t1 t2 : Nat) (tm : Tm)
    (hparse : urlparsePathE target = Except.ok p)
    (hp : p ≠ "/chat/completions") :
    do_POST target contentLength body t1 t2 tm
      = { result := HttpResult.sendError 404 "Not Found", bodyRead := false, logs := [] } := by
  simp only [do_POST, hparse]
  rw [if_pos hp]

/-- Witness for C8 at the path /unknown. -/
theorem c8_not_found_witness :
    urlparsePathE "/unknown" = Except.ok "/unknown"
    ∧ ("/unknown" : String) ≠ "/chat/completions"
    ∧ do_POST "/unknown" none (BodyParse.ok (Json.obj [])) 0 0 tm0
        = { result := HttpResult.sendError 404 "Not Found", bodyRead := false, logs := [] } :=
  ⟨rfl, by decide,
    c8_not_found "/unknown" "/unknown" none (BodyParse.ok (Json.obj [])) 0 0 tm0 rfl (by decide)⟩

